import Mathlib

/-!
Verification development for the MCR (Mobile Camera Receptor) backend:
a shallow embedding of the mediasoup router (backend/src/mediasoup/router.ts
and config.ts) and of the socket.io signaling handlers and in-memory device
registry (backend/src/server.ts), together with theorems about the claims
of the natural-language specification.

JavaScript Maps are embedded as association lists with JS Map semantics
(insertion order, first-key lookup, in-place replacement on set).
Epoch-millisecond timestamps and freshly generated ids (mediasoup uuids)
are passed as explicit parameters.  JS number fields that the code treats
with truthiness tests are embedded as Option values plus an explicit
nonzero test, mirroring JS falsiness of 0 and of the empty string.
-/

namespace MCR

/-- Association-list embedding of a JavaScript Map with string keys. -/
structure JsMap (α : Type) where
  entries : List (String × α)
deriving Repr, DecidableEq

namespace JsMap

variable {α : Type}

/-- JS Map.get: value of the first entry with the given key. -/
def get? (m : JsMap α) (k : String) : Option α :=
  (m.entries.find? (fun e => e.1 == k)).map (fun e => e.2)

/-- JS Map.set on the underlying list: replace the first entry with the key
in place, else append. -/
def setList (k : String) (v : α) : List (String × α) → List (String × α)
  | [] => [(k, v)]
  | e :: rest => if e.1 == k then (k, v) :: rest else e :: setList k v rest

/-- JS Map.set. -/
def set (m : JsMap α) (k : String) (v : α) : JsMap α :=
  ⟨setList k v m.entries⟩

/-- JS Map.delete. -/
def delete (m : JsMap α) (k : String) : JsMap α :=
  ⟨m.entries.filter (fun e => !(e.1 == k))⟩

/-- Array.from(map.values()): values in insertion order. -/
def values (m : JsMap α) : List α :=
  m.entries.map (fun e => e.2)

/-- Map keys in insertion order. -/
def keys (m : JsMap α) : List String :=
  m.entries.map (fun e => e.1)

/-- In-place mutation of the first value satisfying a predicate (the JS
pattern of finding an object in map.values() and mutating its fields). -/
def updateFirstList (p : α → Bool) (f : α → α) : List (String × α) → List (String × α)
  | [] => []
  | e :: rest => if p e.2 then (e.1, f e.2) :: rest else e :: updateFirstList p f rest

/-- Map-level wrapper of updateFirstList. -/
def updateFirstWhere (m : JsMap α) (p : α → Bool) (f : α → α) : JsMap α :=
  ⟨updateFirstList p f m.entries⟩

end JsMap

/-! ## Data model of the mediasoup router (backend/src/mediasoup/router.ts) -/

/-- Media kind of a producer or consumer. -/
inductive MediaKind
  | audio
  | video
deriving Repr, DecidableEq

/-- Variant of a transport held in the transports map: WebRTC transports
(which expose produce/consume) versus plain transports (egress). -/
inductive TransportKind
  | webrtc
  | plain
deriving Repr, DecidableEq

/-- Port range of the plain-transport egress pool (config.ts). -/
structure PortRange where
  min : Nat
  max : Nat
deriving Repr, DecidableEq

/-- Options passed to router.createPlainTransport (config.ts plainTransport). -/
structure PlainTransportOptions where
  listenIp : String
  announcedIp : String
  rtcpMux : Bool
  comedia : Bool
  enableSrtp : Bool
  enableSctp : Bool
  portRange : PortRange
deriving Repr, DecidableEq

namespace mediasoupConfig

/-- config.ts worker.rtcMinPort: lower bound of the WebRTC ICE port range. -/
def workerRtcMinPort : Nat := 10000

/-- config.ts worker.rtcMaxPort: upper bound of the WebRTC ICE port range. -/
def workerRtcMaxPort : Nat := 10100

/-- config.ts plainTransport.  The announced IP is the environment variable
MEDIASOUP_ANNOUNCED_IP with default 127.0.0.1, passed here explicitly. -/
def plainTransport (envAnnouncedIp : Option String) : PlainTransportOptions where
  listenIp := "0.0.0.0"
  announcedIp := envAnnouncedIp.getD "127.0.0.1"
  rtcpMux := true
  comedia := true
  enableSrtp := false
  enableSctp := false
  portRange := { min := 20000, max := 20100 }

end mediasoupConfig

/-- A transport as stored in MediasoupRouter.transports.  clientId is the
appData.clientId attached at creation time. -/
structure Transport where
  id : String
  clientId : String
  kind : TransportKind
  plainOptions : Option PlainTransportOptions := none
deriving Repr, DecidableEq

/-- A producer as stored in MediasoupRouter.producers.  clientId is the
appData.clientId the router attaches when producing. -/
structure Producer where
  id : String
  kind : MediaKind
  clientId : String
deriving Repr, DecidableEq

/-- A consumer as stored in MediasoupRouter.consumers. -/
structure Consumer where
  id : String
  producerId : String
  clientId : String
deriving Repr, DecidableEq

/-- Nominal resolution of a stream record. -/
structure Resolution where
  width : Int
  height : Int
deriving Repr, DecidableEq

/-- The stats sub-record of StreamInfo. -/
structure StreamStats where
  bitrate : Int
  packetsLost : Int
  rtt : Int
  jitter : Int
  frameRate : Int
deriving Repr, DecidableEq

/-- StreamInfo from router.ts.  connectedAt is an epoch-millisecond value. -/
structure StreamInfo where
  id : String
  producerId : String
  clientId : String
  deviceName : String
  resolution : Resolution
  bitrate : Int
  connectedAt : Nat
  customName : Option String := none
  stats : Option StreamStats := none
deriving Repr, DecidableEq

/-- The first RTP encoding of the produce request, with the two fields the
router reads.  A JS field that is absent is none; the truthiness test on a
present numeric field is an explicit nonzero test. -/
structure RtpEncoding where
  scaleResolutionDownBy : Option ℚ := none
  maxBitrate : Option Int := none
deriving Repr, DecidableEq

/-- The rtpParameters of a produce request (only the encodings are read). -/
structure RtpParameters where
  encodings : List RtpEncoding := []
deriving Repr, DecidableEq

/-- The mutable maps of a MediasoupRouter after initialize() has run. -/
structure RouterState where
  transports : JsMap Transport
  producers : JsMap Producer
  consumers : JsMap Consumer
  streamMetadata : JsMap StreamInfo
deriving Repr, DecidableEq

/-- JS Math.floor on an exact rational. -/
def jsMathFloor (q : ℚ) : Int := Rat.floor q

/-- JS String.prototype.slice(-4): the last four characters, or the whole
string when it is shorter. -/
def sliceLast4 (s : String) : String :=
  if s.length ≤ 4 then s else (s.toList.drop (s.length - 4)).asString

/-- The block of createProducer that reads resolution and bitrate out of
rtpParameters.encodings[0]; it appears verbatim in both the update branch
and the creation branch of the source. -/
def applyFirstEncoding (rtpParameters : RtpParameters) (res : Resolution) (bitrate : Int) :
    Resolution × Int :=
  match rtpParameters.encodings with
  | [] => (res, bitrate)
  | encoding :: _ =>
      let res1 :=
        match encoding.scaleResolutionDownBy with
        | some s =>
            if s ≠ 0 then
              { width := jsMathFloor (1280 / s), height := jsMathFloor (720 / s) : Resolution }
            else res
        | none => res
      let b1 :=
        match encoding.maxBitrate with
        | some mb => if mb ≠ 0 then mb else bitrate
        | none => bitrate
      (res1, b1)

/-- MediasoupRouter.createWebRtcTransport: registers a WebRTC transport whose
appData.clientId is "client-" followed by Date.now().  The mediasoup-chosen
transport uuid is the newTransportId parameter. -/
def createWebRtcTransport (st : RouterState) (now : Nat) (newTransportId : String) :
    RouterState × Transport :=
  let t : Transport :=
    { id := newTransportId, clientId := "client-" ++ toString now, kind := .webrtc }
  ({ st with transports := st.transports.set t.id t }, t)

/-- MediasoupRouter.createPlainTransport: registers a plain transport whose
appData.clientId is "ndi-bridge-" followed by Date.now(), created with the
config.ts plainTransport options. -/
def createPlainTransport (st : RouterState) (envAnnouncedIp : Option String)
    (now : Nat) (newTransportId : String) : RouterState × Transport :=
  let t : Transport :=
    { id := newTransportId, clientId := "ndi-bridge-" ++ toString now, kind := .plain,
      plainOptions := some (mediasoupConfig.plainTransport envAnnouncedIp) }
  ({ st with transports := st.transports.set t.id t }, t)

/-- The fresh stats block written for video stream records. -/
def freshStats : StreamStats :=
  { bitrate := 0, packetsLost := 0, rtt := 0, jitter := 0, frameRate := 30 }

/-- The in-place mutation createProducer applies to an existing stream record
of the same client: refresh producerId and connectedAt, re-read resolution
and bitrate from the first encoding, and reset the stats when present. -/
def updateExistingStream (newProducerId : String) (now : Nat)
    (rtpParameters : RtpParameters) (s : StreamInfo) : StreamInfo :=
  let s1 := { s with producerId := newProducerId, connectedAt := now }
  let rb := applyFirstEncoding rtpParameters s1.resolution s1.bitrate
  let s2 := { s1 with resolution := rb.1, bitrate := rb.2 }
  match s2.stats with
  | some _ => { s2 with stats := some freshStats }
  | none => s2

/-- MediasoupRouter.createProducer.  The producer uuid chosen by mediasoup is
the newProducerId parameter and Date.now() is the now parameter.  The
appData.clientId of the producer is the id of the owning transport (the
source comment: use transport ID as stable client identifier).  For video
producers a stream record is updated in place if one exists for this client
id, otherwise a new one is synthesized. -/
def createProducer (st : RouterState) (transportId : String) (kind : MediaKind)
    (rtpParameters : RtpParameters) (now : Nat) (newProducerId : String) :
    Except String (RouterState × Producer) :=
  match st.transports.get? transportId with
  | none => .error "Transport not found or not a WebRTC transport"
  | some transport =>
    match transport.kind with
    | .plain => .error "Transport not found or not a WebRTC transport"
    | .webrtc =>
      let clientId := transport.id
      let producer : Producer := { id := newProducerId, kind := kind, clientId := clientId }
      let st1 := { st with producers := st.producers.set producer.id producer }
      match kind with
      | .audio => .ok (st1, producer)
      | .video =>
        match st1.streamMetadata.values.find? (fun s => s.clientId == clientId) with
        | some _ =>
          .ok ({ st1 with
                  streamMetadata :=
                    st1.streamMetadata.updateFirstWhere (fun s => s.clientId == clientId)
                      (updateExistingStream producer.id now rtpParameters) },
               producer)
        | none =>
          let streamId := "stream-" ++ clientId ++ "-" ++ toString now
          let base : StreamInfo :=
            { id := streamId, producerId := producer.id, clientId := clientId,
              deviceName := "Device " ++ sliceLast4 clientId,
              resolution := { width := 1280, height := 720 },
              bitrate := 1000000, connectedAt := now, customName := none,
              stats := some freshStats }
          let rb := applyFirstEncoding rtpParameters base.resolution base.bitrate
          let info := { base with resolution := rb.1, bitrate := rb.2 }
          .ok ({ st1 with streamMetadata := st1.streamMetadata.set streamId info }, producer)

/-- MediasoupRouter.getActiveStreams. -/
def getActiveStreams (st : RouterState) : List StreamInfo :=
  st.streamMetadata.values

/-- MediasoupRouter.getStreamById. -/
def getStreamById (st : RouterState) (streamId : String) : Option StreamInfo :=
  st.streamMetadata.get? streamId

/-- MediasoupRouter.updateStreamName. -/
def updateStreamName (st : RouterState) (streamId : String) (name : String) :
    RouterState × Bool :=
  match st.streamMetadata.get? streamId with
  | some stream =>
      ({ st with streamMetadata := st.streamMetadata.set streamId { stream with customName := some name } },
       true)
  | none => (st, false)

/-- Result of MediasoupRouter.disconnectStream: the new state, the ids of the
entities on which close() was invoked, and the boolean return value. -/
structure DisconnectResult where
  state : RouterState
  closedProducers : List String
  closedTransports : List String
  ok : Bool
deriving Repr, DecidableEq

/-- MediasoupRouter.disconnectStream: close and drop the producer of the
stream, close and drop the transport whose appData.clientId equals the
stream clientId if one exists, and drop the stream record. -/
def disconnectStream (st : RouterState) (streamId : String) : DisconnectResult :=
  match st.streamMetadata.get? streamId with
  | none => { state := st, closedProducers := [], closedTransports := [], ok := false }
  | some stream =>
      let pres :=
        match st.producers.get? stream.producerId with
        | some _ => (st.producers.delete stream.producerId, [stream.producerId])
        | none => (st.producers, ([] : List String))
      let tres :=
        match st.transports.values.find? (fun t => t.clientId == stream.clientId) with
        | some t => (st.transports.delete t.id, [t.id])
        | none => (st.transports, ([] : List String))
      { state :=
          { st with
            producers := pres.1
            transports := tres.1
            streamMetadata := st.streamMetadata.delete streamId }
        closedProducers := pres.2
        closedTransports := tres.2
        ok := true }

/-- MediasoupRouter.handleProducerClosed: if some stream record carries this
producer id, drop that record, drop the producer, and drop the transport
whose appData.clientId equals the stream clientId; otherwise do nothing. -/
def handleProducerClosed (st : RouterState) (producerId : String) : RouterState :=
  match st.streamMetadata.values.find? (fun s => s.producerId == producerId) with
  | none => st
  | some stream =>
      let st1 :=
        { st with
          streamMetadata := st.streamMetadata.delete stream.id
          producers := st.producers.delete producerId }
      match st1.transports.values.find? (fun t => t.clientId == stream.clientId) with
      | none => st1
      | some t => { st1 with transports := st1.transports.delete t.id }

/-! ## Device registry and signaling handlers (backend/src/server.ts) -/

/-- The DeviceInfo record of the in-memory device registry.  removalTimer
holds the epoch-millisecond expiry instant of the armed removal timer, or
none when no timer is armed (clearTimeout has run or none was set). -/
structure DeviceInfo where
  deviceId : String
  socketId : String
  deviceName : Option String := none
  isConnected : Bool
  isStreaming : Bool
  streamId : Option String := none
  lastSeenAt : Nat
  removalTimer : Option Nat := none
deriving Repr, DecidableEq

/-- Reply sent through a socket.io acknowledgement callback. -/
inductive Reply
  | ok
  | error (msg : String)
deriving Repr, DecidableEq

/-- Broadcast events emitted with io.emit. -/
inductive Event
  | deviceConnected (deviceId : String) (deviceName : Option String)
  | deviceDisconnected (deviceId : String)
  | deviceRemoved (deviceId : String)
  | deviceStreamingChanged (deviceId : String) (isStreaming : Bool) (streamId : Option String)
  | streamStarted (streamId : String)
  | streamEnded (streamId : String)
deriving Repr, DecidableEq

/-- Payload of a register-device request. -/
structure RegisterData where
  deviceId : Option String := none
  deviceName : Option String := none
deriving Repr, DecidableEq

/-- JS truthiness of an optional string: undefined and the empty string are
falsy. -/
def jsTruthyStr : Option String → Option String
  | some s => if s = "" then none else some s
  | none => none

/-- The register-device handler.  A falsy deviceId is rejected with an error
and no effect.  Otherwise any pending removal timer for the device is
cancelled and the registry entry is rebuilt: the session socket is bound,
the name is kept from the previous entry when the request omits it, the
streaming flag and stream id survive re-registration, and device-connected
is broadcast. -/
def registerDevice (ds : JsMap DeviceInfo) (data : RegisterData) (socketId : String)
    (now : Nat) : JsMap DeviceInfo × Reply × List Event :=
  match jsTruthyStr data.deviceId with
  | none => (ds, .error "deviceId is required", [])
  | some did =>
      let existing := ds.get? did
      let info : DeviceInfo :=
        { deviceId := did
          socketId := socketId
          deviceName :=
            match jsTruthyStr data.deviceName with
            | some n => some n
            | none => existing.bind (fun e => e.deviceName)
          isConnected := true
          isStreaming :=
            match existing with
            | some e => e.isStreaming
            | none => false
          streamId :=
            match existing with
            | some e => jsTruthyStr e.streamId
            | none => none
          lastSeenAt := now
          removalTimer := none }
      (ds.set did info, .ok, [.deviceConnected did info.deviceName])

/-- The socket disconnect handler, restricted to the device registry: mark
the device of this socket disconnected, broadcast device-disconnected, and
arm a removal timer that expires 30000 ms from now. -/
def socketDisconnect (ds : JsMap DeviceInfo) (socketId : String) (now : Nat) :
    JsMap DeviceInfo × List Event :=
  match ds.values.find? (fun d => d.socketId == socketId) with
  | none => (ds, [])
  | some d =>
      let d1 := { d with isConnected := false, lastSeenAt := now,
                         removalTimer := some (now + 30000) }
      (ds.set d.deviceId d1, [.deviceDisconnected d.deviceId])

/-- Expiry of the removal timer armed by socketDisconnect.  The callback runs
only when the armed timer matches the firing instant (a cancelled timer
never runs); it deletes the device and broadcasts device-removed only when
the device is still neither connected nor streaming, and in either case the
timer is consumed. -/
def fireRemoval (ds : JsMap DeviceInfo) (did : String) (t : Nat) :
    JsMap DeviceInfo × List Event :=
  match ds.get? did with
  | none => (ds, [])
  | some d =>
      if d.removalTimer = some t then
        if d.isConnected = false ∧ d.isStreaming = false then
          (ds.delete did, [.deviceRemoved did])
        else
          (ds.set did { d with removalTimer := none }, [])
      else (ds, [])

/-- The stop-stream handler, combined server state below pairs it with the
router: mark the device of this socket as not streaming and broadcast
device-streaming-changed(false); nothing else is touched. -/
def stopStreamDevices (ds : JsMap DeviceInfo) (socketId : String) (now : Nat) :
    JsMap DeviceInfo × Reply × List Event :=
  match ds.values.find? (fun d => d.socketId == socketId) with
  | none => (ds, .error "Device not found", [])
  | some d =>
      let d1 := { d with isStreaming := false, streamId := none, lastSeenAt := now }
      (ds.set d.deviceId d1, .ok, [.deviceStreamingChanged d.deviceId false none])

/-- Combined server state: the mediasoup router maps and the device
registry. -/
structure ServerState where
  router : RouterState
  devices : JsMap DeviceInfo
deriving Repr, DecidableEq

/-- The stop-stream handler on the combined state: it only rewrites the
device registry entry of the calling socket. -/
def handleStopStream (st : ServerState) (socketId : String) (now : Nat) :
    ServerState × Reply × List Event :=
  let r := stopStreamDevices st.devices socketId now
  ({ st with devices := r.1 }, r.2.1, r.2.2)

/-! ## Registry trace semantics for the removal grace window -/

/-- Registry-facing actions of a signaling trace: a register-device request,
a socket disconnect at a given instant, and the expiry of a removal timer. -/
inductive Action
  | register (deviceId : String) (deviceName : Option String) (socketId : String) (now : Nat)
  | disconnect (socketId : String) (now : Nat)
  | fire (deviceId : String) (t : Nat)
deriving Repr, DecidableEq

/-- One registry step. -/
def step (ds : JsMap DeviceInfo) : Action → JsMap DeviceInfo × List Event
  | .register did name sid now =>
      let r := registerDevice ds { deviceId := some did, deviceName := name } sid now
      (r.1, r.2.2)
  | .disconnect sid now => socketDisconnect ds sid now
  | .fire did t => fireRemoval ds did t

/-- Run a trace of registry actions, accumulating the broadcast events. -/
def run (ds : JsMap DeviceInfo) : List Action → JsMap DeviceInfo × List Event
  | [] => (ds, [])
  | a :: rest =>
      let r := step ds a
      let r2 := run r.1 rest
      (r2.1, r.2 ++ r2.2)

/-- An action avoids a device when it is not a register-device for that id,
not a disconnect of the socket the device is currently bound to, and not
the expiry of that device removal timer. -/
def Action.avoids (a : Action) (did sid : String) : Prop :=
  match a with
  | .register d _ _ _ => d ≠ did
  | .disconnect s _ => s ≠ sid
  | .fire d _ => d ≠ did

instance (a : Action) (did sid : String) : Decidable (a.avoids did sid) := by
  cases a <;> simp [Action.avoids] <;> infer_instance

/-- Reachability invariant of the registry: every entry is keyed by the
deviceId of its record, and keys are unique. -/
def WellKeyed (ds : JsMap DeviceInfo) : Prop :=
  (∀ e ∈ ds.entries, e.2.deviceId = e.1) ∧ ds.keys.Nodup

instance (ds : JsMap DeviceInfo) : Decidable (WellKeyed ds) := by
  unfold WellKeyed
  infer_instance

/-! ## Egress bridge service (ndi-bridge-consume-stream) -/

/-- An egress binding: the dedicated plain RTP tuple re-emitting one
producer, as recorded by the PlainTransport manager. -/
structure EgressBinding where
  transportId : String
  ip : String
  port : Nat
  rtcpPort : Option Nat := none
  consumerId : String
  streamId : String
  createdAt : Nat
deriving Repr, DecidableEq

/-- Reply of the ndi-bridge-consume-stream handler, restricted to the egress
tuple fields the claim speaks about. -/
inductive ConsumeReply
  | ok (consumerId : String) (ip : String) (port : Nat)
  | error (msg : String)
deriving Repr, DecidableEq

/-- Modelled from the spec: the PlainTransport egress manager behind the
ndi-bridge-consume-stream handler of server.ts (the methods
createPlainTransportForStream, getPlainTransports and
closePlainTransportForProducer that server.ts calls) is code of this
repository that is not under src.  Following section 4.E of the spec: the
producer id is validated; if an EgressBinding already exists for this
producer its tuple is returned unchanged (idempotent); otherwise a fresh
egress transport, port and consumer are allocated and the binding is
recorded keyed by the producer id.  Fresh ids and the allocated port are
explicit parameters. -/
def ndiBridgeConsumeStream (router : RouterState) (bindings : JsMap EgressBinding)
    (streamId producerId : String) (ip : String) (freshPort : Nat)
    (freshTransportId freshConsumerId : String) (now : Nat) :
    JsMap EgressBinding × ConsumeReply :=
  match router.producers.get? producerId with
  | none => (bindings, .error "Producer not found")
  | some _ =>
      match bindings.get? producerId with
      | some b => (bindings, .ok b.consumerId b.ip b.port)
      | none =>
          let b : EgressBinding :=
            { transportId := freshTransportId, ip := ip, port := freshPort,
              rtcpPort := none, consumerId := freshConsumerId,
              streamId := streamId, createdAt := now }
          (bindings.set producerId b, .ok freshConsumerId ip freshPort)


/-! ## Concrete fixtures used by witnesses and counterexamples -/

/-- A router with empty maps. -/
def emptyRouter : RouterState := ⟨⟨[]⟩, ⟨[]⟩, ⟨[]⟩, ⟨[]⟩⟩

/-- A WebRTC transport as created by createWebRtcTransport at epoch 42. -/
def transportT1 : Transport :=
  { id := "t1", clientId := "client-42", kind := .webrtc }

/-- A router holding only transportT1. -/
def routerT1 : RouterState := ⟨⟨[("t1", transportT1)]⟩, ⟨[]⟩, ⟨[]⟩, ⟨[]⟩⟩

/-- A video producer created on transportT1. -/
def producerP0 : Producer := { id := "p0", kind := .video, clientId := "t1" }

/-- An audio producer created on transportT1. -/
def producerA0 : Producer := { id := "pa", kind := .audio, clientId := "t1" }

/-- The video producer created in the C1 and C4 scenarios. -/
def producerP1 : Producer := { id := "p1", kind := .video, clientId := "t1" }

/-- The stream record that createProducer synthesizes on routerT1 for the
first video producer p1 at epoch 99. -/
def streamT1at99 : StreamInfo :=
  { id := "stream-t1-99", producerId := "p1", clientId := "t1",
    deviceName := "Device t1",
    resolution := { width := 1280, height := 720 },
    bitrate := 1000000, connectedAt := 99, customName := none,
    stats := some freshStats }

/-- The router state after that produce call. -/
def routerAfterP1 : RouterState :=
  ⟨⟨[("t1", transportT1)]⟩, ⟨[("p1", producerP1)]⟩, ⟨[]⟩,
    ⟨[("stream-t1-99", streamT1at99)]⟩⟩

/-- The stream record synthesized for producerP0 at epoch 5, renamed by an
operator. -/
def streamS1 : StreamInfo :=
  { id := "stream-t1-5", producerId := "p0", clientId := "t1",
    deviceName := "Device t1",
    resolution := { width := 1280, height := 720 },
    bitrate := 1000000, connectedAt := 5, customName := some "CAM-LEFT",
    stats := some freshStats }

/-- A router holding transportT1 and the stream of producerP0. -/
def routerT1S1 : RouterState :=
  ⟨⟨[("t1", transportT1)]⟩, ⟨[]⟩, ⟨[]⟩, ⟨[("stream-t1-5", streamS1)]⟩⟩

/-- A router holding transportT1, producerP0 and its stream record. -/
def routerLive : RouterState :=
  ⟨⟨[("t1", transportT1)]⟩, ⟨[("p0", producerP0)]⟩, ⟨[]⟩, ⟨[("stream-t1-5", streamS1)]⟩⟩

/-- A router holding transportT1 and producerA0 with no stream records. -/
def routerAudio : RouterState :=
  ⟨⟨[("t1", transportT1)]⟩, ⟨[("pa", producerA0)]⟩, ⟨[]⟩, ⟨[]⟩⟩

/-- A registered device bound to socket s1, connected, not streaming. -/
def camDevice : DeviceInfo :=
  { deviceId := "cam1", socketId := "s1", isConnected := true,
    isStreaming := false, lastSeenAt := 0 }

/-- A registry holding only camDevice. -/
def camRegistry : JsMap DeviceInfo := ⟨[("cam1", camDevice)]⟩

/-- camDevice while it is streaming streamS1. -/
def camStreaming : DeviceInfo :=
  { deviceId := "cam1", socketId := "s1", isConnected := true,
    isStreaming := true, streamId := some "stream-t1-5", lastSeenAt := 0 }

/-- Combined server state for the stop-stream scenario. -/
def serverLive : ServerState :=
  { router := routerLive, devices := ⟨[("cam1", camStreaming)]⟩ }

/-- The spec claim P1 restricted to what claim C1 states: every live video
producer has exactly one device in the registry whose deviceId equals the
producer appData.clientId. -/
def producerDeviceInvariant (router : RouterState) (ds : JsMap DeviceInfo) : Prop :=
  ∀ p ∈ router.producers.values, p.kind = MediaKind.video →
    (ds.values.filter (fun d => d.deviceId == p.clientId)).length = 1

instance (router : RouterState) (ds : JsMap DeviceInfo) :
    Decidable (producerDeviceInvariant router ds) := by
  unfold producerDeviceInvariant
  infer_instance

/-- Claim C4 as stated for the bitrate clause: on the first video producer of
a client transport, whenever the first encoding declares a maxBitrate, that
declared value is adopted as the synthesized stream bitrate. -/
def claimC4BitrateAsStated : Prop :=
  ∀ (st : RouterState) (tid : String) (t : Transport) (rtp : RtpParameters)
    (now : Nat) (pid : String) (st1 : RouterState) (p : Producer)
    (e : RtpEncoding) (es : List RtpEncoding) (mb : Int) (info : StreamInfo),
    st.transports.get? tid = some t →
    st.streamMetadata.values.find? (fun s => s.clientId == t.id) = none →
    createProducer st tid .video rtp now pid = .ok (st1, p) →
    rtp.encodings = e :: es →
    e.maxBitrate = some mb →
    st1.streamMetadata.get? ("stream-" ++ t.id ++ "-" ++ toString now) = some info →
    info.bitrate = mb

/-- The rtpParameters of the C4 counterexample: one encoding that declares
maxBitrate 0 (a falsy value the source ignores). -/
def rtpZeroMaxBitrate : RtpParameters :=
  { encodings := [{ scaleResolutionDownBy := none, maxBitrate := some 0 }] }

/-! ## Helper lemmas about the JsMap embedding -/

theorem find?_cons_pos {β : Type} {p : β → Bool} {a : β} {l : List β} (h : p a = true) :
    List.find? p (a :: l) = some a := by
  simp [List.find?, h]

theorem find?_cons_neg {β : Type} {p : β → Bool} {a : β} {l : List β} (h : p a = false) :
    List.find? p (a :: l) = List.find? p l := by
  simp [List.find?, h]

theorem filter_cons_pos {β : Type} {p : β → Bool} {a : β} {l : List β} (h : p a = true) :
    List.filter p (a :: l) = a :: List.filter p l := by
  simp [List.filter, h]

theorem filter_cons_neg {β : Type} {p : β → Bool} {a : β} {l : List β} (h : p a = false) :
    List.filter p (a :: l) = List.filter p l := by
  simp [List.filter, h]

namespace JsMap

variable {α : Type}

theorem setList_cons_pos (k : String) (v : α) (e : String × α) (rest : List (String × α))
    (h : e.1 = k) : setList k v (e :: rest) = (k, v) :: rest := by
  simp [setList, h]

theorem setList_cons_neg (k : String) (v : α) (e : String × α) (rest : List (String × α))
    (h : ¬ e.1 = k) : setList k v (e :: rest) = e :: setList k v rest := by
  simp [setList, h]

theorem find?_setList_self (k : String) (v : α) :
    ∀ l : List (String × α), (setList k v l).find? (fun e => e.1 == k) = some (k, v) := by
  intro l
  induction l with
  | nil => simp [setList, List.find?]
  | cons e rest ih =>
    by_cases h : e.1 = k
    · rw [setList_cons_pos k v e rest h, find?_cons_pos (by simp)]
    · rw [setList_cons_neg k v e rest h, find?_cons_neg (by simp [h]), ih]

theorem get?_set_self (m : JsMap α) (k : String) (v : α) :
    (m.set k v).get? k = some v := by
  simp [get?, set, find?_setList_self]

theorem find?_setList_ne (k k' : String) (v : α) (h : k' ≠ k) :
    ∀ l : List (String × α),
      (setList k v l).find? (fun e => e.1 == k') = l.find? (fun e => e.1 == k') := by
  have hkk : ¬ (k = k') := fun hh => h hh.symm
  intro l
  induction l with
  | nil =>
    have hb : (k == k') = false := by simp [hkk]
    simp [setList, List.find?, hb]
  | cons e rest ih =>
    by_cases he : e.1 = k
    · rw [setList_cons_pos k v e rest he, find?_cons_neg (by simp [hkk]),
        find?_cons_neg (by simp [he, hkk])]
    · rw [setList_cons_neg k v e rest he]
      by_cases he' : e.1 = k'
      · rw [find?_cons_pos (by simp [he']), find?_cons_pos (by simp [he'])]
      · rw [find?_cons_neg (by simp [he']), find?_cons_neg (by simp [he']), ih]

theorem get?_set_ne (m : JsMap α) (k k' : String) (v : α) (h : k' ≠ k) :
    (m.set k v).get? k' = m.get? k' := by
  simp [get?, set, find?_setList_ne k k' v h]

theorem get?_delete_self (m : JsMap α) (k : String) :
    (m.delete k).get? k = none := by
  have hfind : (m.entries.filter (fun e => !(e.1 == k))).find? (fun e => e.1 == k) = none := by
    rw [List.find?_eq_none]
    intro e he
    have h2 := List.of_mem_filter he
    simpa using h2
  simp [get?, delete, hfind]

theorem find?_filter_ne (k k' : String) (h : k' ≠ k) :
    ∀ l : List (String × α),
      (l.filter (fun e => !(e.1 == k))).find? (fun e => e.1 == k') =
        l.find? (fun e => e.1 == k') := by
  have hkk : ¬ (k = k') := fun hh => h hh.symm
  intro l
  induction l with
  | nil => simp
  | cons e rest ih =>
    by_cases he : e.1 = k
    · have h1 : List.filter (fun e => !(e.1 == k)) (e :: rest) =
          List.filter (fun e => !(e.1 == k)) rest :=
        filter_cons_neg (by simp [he])
      rw [h1, find?_cons_neg (by simp [he, hkk]), ih]
    · have h1 : List.filter (fun e => !(e.1 == k)) (e :: rest) =
          e :: List.filter (fun e => !(e.1 == k)) rest :=
        filter_cons_pos (by simp [he])
      rw [h1]
      by_cases he' : e.1 = k'
      · rw [find?_cons_pos (by simp [he']), find?_cons_pos (by simp [he'])]
      · rw [find?_cons_neg (by simp [he']), find?_cons_neg (by simp [he']), ih]

theorem get?_delete_ne (m : JsMap α) (k k' : String) (h : k' ≠ k) :
    (m.delete k).get? k' = m.get? k' := by
  simp [get?, delete, find?_filter_ne k k' h]

theorem mem_of_get? (m : JsMap α) (k : String) (v : α)
    (h : m.get? k = some v) : (k, v) ∈ m.entries := by
  simp only [get?, Option.map_eq_some'] at h
  obtain ⟨e, he, hev⟩ := h
  have hmem := List.mem_of_find?_eq_some he
  have hp := List.find?_some he
  have hk : e.1 = k := by simpa using hp
  have : e = (k, v) := by
    cases e
    simp_all
  rwa [this] at hmem

theorem get?_of_mem_nodup (m : JsMap α) (k : String) (v : α)
    (hnd : m.keys.Nodup) (hmem : (k, v) ∈ m.entries) : m.get? k = some v := by
  simp only [get?]
  obtain ⟨m⟩ := m
  simp only [keys] at hnd
  induction m with
  | nil => simp at hmem
  | cons e rest ih =>
    simp only [List.map_cons, List.nodup_cons] at hnd
    rcases List.mem_cons.1 hmem with h1 | h2
    · rw [find?_cons_pos (by simp [← h1])]
      simp [← h1]
    · have hne : e.1 ≠ k := by
        intro hk
        exact hnd.1 (hk ▸ (List.mem_map.2 ⟨(k, v), h2, rfl⟩))
      rw [find?_cons_neg (by simp [hne])]
      exact ih hnd.2 h2

theorem mem_setList (k : String) (v : α) (e : String × α) :
    ∀ l : List (String × α), e ∈ setList k v l → e = (k, v) ∨ e ∈ l := by
  intro l
  induction l with
  | nil => simp [setList]
  | cons e0 rest ih =>
    by_cases h : e0.1 = k
    · rw [setList_cons_pos k v e0 rest h]
      intro hmem
      rcases List.mem_cons.1 hmem with h1 | h2
      · exact Or.inl h1
      · exact Or.inr (List.mem_cons.2 (Or.inr h2))
    · rw [setList_cons_neg k v e0 rest h]
      intro hmem
      rcases List.mem_cons.1 hmem with h1 | h2
      · exact Or.inr (List.mem_cons.2 (Or.inl h1))
      · rcases ih h2 with h3 | h4
        · exact Or.inl h3
        · exact Or.inr (List.mem_cons.2 (Or.inr h4))

theorem mem_keys_setList (k k' : String) (v : α) :
    ∀ l : List (String × α),
      k' ∈ (setList k v l).map (fun e => e.1) → k' = k ∨ k' ∈ l.map (fun e => e.1) := by
  intro l
  induction l with
  | nil => simp [setList]
  | cons e0 rest ih =>
    by_cases h : e0.1 = k
    · rw [setList_cons_pos k v e0 rest h]
      simp only [List.map_cons]
      intro hmem
      rcases List.mem_cons.1 hmem with h1 | h2
      · exact Or.inl h1
      · exact Or.inr (List.mem_cons.2 (Or.inr h2))
    · rw [setList_cons_neg k v e0 rest h]
      simp only [List.map_cons]
      intro hmem
      rcases List.mem_cons.1 hmem with h1 | h2
      · exact Or.inr (List.mem_cons.2 (Or.inl h1))
      · rcases ih h2 with h3 | h4
        · exact Or.inl h3
        · exact Or.inr (List.mem_cons.2 (Or.inr h4))

theorem keys_nodup_set (m : JsMap α) (k : String) (v : α)
    (hnd : m.keys.Nodup) : ((m.set k v).keys).Nodup := by
  obtain ⟨m⟩ := m
  simp only [keys, set] at *
  induction m with
  | nil => simp [setList]
  | cons e rest ih =>
    simp only [List.map_cons, List.nodup_cons] at hnd
    by_cases h : e.1 = k
    · rw [setList_cons_pos k v e rest h]
      simp only [List.map_cons, List.nodup_cons]
      exact ⟨h ▸ hnd.1, hnd.2⟩
    · rw [setList_cons_neg k v e rest h]
      simp only [List.map_cons, List.nodup_cons]
      refine ⟨?_, ih hnd.2⟩
      intro hmem
      rcases mem_keys_setList k e.1 v rest hmem with h1 | h2
      · exact h h1
      · exact hnd.1 h2

theorem keys_nodup_delete (m : JsMap α) (k : String)
    (hnd : m.keys.Nodup) : ((m.delete k).keys).Nodup := by
  simp only [keys, delete] at *
  exact hnd.sublist ((List.filter_sublist _).map _)

theorem mem_entries_delete (m : JsMap α) (k : String) (e : String × α)
    (h : e ∈ (m.delete k).entries) : e ∈ m.entries :=
  List.mem_of_mem_filter h

theorem length_updateFirstList (p : α → Bool) (f : α → α) :
    ∀ l : List (String × α), (updateFirstList p f l).length = l.length := by
  intro l
  induction l with
  | nil => rfl
  | cons e rest ih =>
    by_cases h : p e.2
    · simp [updateFirstList, h]
    · simp [updateFirstList, h, ih]

theorem updateFirstList_cons_pos (p : α → Bool) (f : α → α) (e : String × α)
    (rest : List (String × α)) (h : p e.2 = true) :
    updateFirstList p f (e :: rest) = (e.1, f e.2) :: rest := by
  simp [updateFirstList, h]

theorem updateFirstList_cons_neg (p : α → Bool) (f : α → α) (e : String × α)
    (rest : List (String × α)) (h : p e.2 = false) :
    updateFirstList p f (e :: rest) = e :: updateFirstList p f rest := by
  simp [updateFirstList, h]

theorem find?_values_updateFirst (m : JsMap α) (p : α → Bool) (f : α → α) (v : α)
    (hfind : m.values.find? p = some v) (hpf : p (f v) = true) :
    (m.updateFirstWhere p f).values.find? p = some (f v) := by
  obtain ⟨m⟩ := m
  simp only [values, updateFirstWhere] at *
  induction m with
  | nil => simp at hfind
  | cons e rest ih =>
    by_cases h : p e.2 = true
    · simp only [List.map_cons] at hfind
      rw [find?_cons_pos h] at hfind
      have hv : e.2 = v := by simpa using hfind
      rw [updateFirstList_cons_pos p f e rest h]
      simp only [List.map_cons]
      have h2 : p (f e.2) = true := by rw [hv]; exact hpf
      rw [find?_cons_pos h2, hv]
    · have hb : p e.2 = false := by simpa using h
      simp only [List.map_cons] at hfind
      rw [find?_cons_neg hb] at hfind
      rw [updateFirstList_cons_neg p f e rest hb]
      simp only [List.map_cons]
      rw [find?_cons_neg hb]
      exact ih hfind

end JsMap


/-! ## Claim theorems -/

/-- C7: every egress PlainTransport created by MediasoupRouter.createPlainTransport
is configured with the dedicated UDP port range 20000 to 20100, which is
disjoint from the WebRTC port range 10000 to 10100, with RTCP mux enabled,
comedia enabled, SRTP disabled, and no SCTP data channel. -/
theorem claim_C7 (st : RouterState) (env : Option String) (now : Nat) (tid : String) :
    ∃ o : PlainTransportOptions,
      (createPlainTransport st env now tid).1.transports.get? tid =
        some (createPlainTransport st env now tid).2 ∧
      (createPlainTransport st env now tid).2.plainOptions = some o ∧
      (createPlainTransport st env now tid).2.kind = .plain ∧
      o.portRange.min = 20000 ∧ o.portRange.max = 20100 ∧
      o.rtcpMux = true ∧ o.comedia = true ∧
      o.enableSrtp = false ∧ o.enableSctp = false ∧
      (∀ p : Nat, o.portRange.min ≤ p → p ≤ o.portRange.max →
        ¬ (mediasoupConfig.workerRtcMinPort ≤ p ∧ p ≤ mediasoupConfig.workerRtcMaxPort)) := by
  refine ⟨mediasoupConfig.plainTransport env,
    JsMap.get?_set_self st.transports tid _, rfl, rfl, rfl, rfl, rfl, rfl, rfl, rfl, ?_⟩
  intro p h1 h2 h3
  simp only [mediasoupConfig.plainTransport, mediasoupConfig.workerRtcMinPort,
    mediasoupConfig.workerRtcMaxPort] at h1 h2 h3
  omega

/-- Witness for C7 at a concrete creation: port 20050 of the egress range is
outside the WebRTC range. -/
theorem claim_C7_witness :
    ¬ (mediasoupConfig.workerRtcMinPort ≤ 20050 ∧
       20050 ≤ mediasoupConfig.workerRtcMaxPort) := by
  obtain ⟨o, -, -, -, hmin, hmax, -, -, -, -, hdisj⟩ :=
    claim_C7 emptyRouter none 7 "pt1"
  exact hdisj 20050 (by rw [hmin]; decide) (by rw [hmax]; decide)

/-- C8: a register-device request whose payload lacks a deviceId (absent or
empty, hence falsy) is answered with the missing-deviceId error and leaves
the device registry completely unchanged: no entry is created or modified,
in particular every armed removal timer is left as it was, and no event is
broadcast. -/
theorem claim_C8 (ds : JsMap DeviceInfo) (data : RegisterData) (sid : String) (now : Nat)
    (h : jsTruthyStr data.deviceId = none) :
    registerDevice ds data sid now = (ds, .error "deviceId is required", []) ∧
    (∀ k, (registerDevice ds data sid now).1.get? k = ds.get? k) := by
  constructor
  · simp [registerDevice, h]
  · intro k
    simp [registerDevice, h]

/-- Witness for C8: a concrete payload without deviceId against a registry
holding one device. -/
theorem claim_C8_witness :
    registerDevice camRegistry { deviceName := some "Phone" } "s9" 77 =
      (camRegistry, .error "deviceId is required", []) :=
  (claim_C8 camRegistry { deviceName := some "Phone" } "s9" 77 (by decide)).1

/-- C2: with a live producer, issuing ndi-bridge-consume-stream twice while
the first binding stays alive returns the same egress tuple both times: the
same consumerId, the same ip and the same port, whatever fresh port, ids
and instant the second allocation would otherwise have used. -/
theorem claim_C2 (router : RouterState) (bindings : JsMap EgressBinding)
    (sid1 pid ip1 : String) (fp1 : Nat) (ft1 fc1 : String) (n1 : Nat)
    (sid2 ip2 : String) (fp2 : Nat) (ft2 fc2 : String) (n2 : Nat)
    (h : (router.producers.get? pid).isSome) :
    ∃ (c i : String) (po : Nat),
      (ndiBridgeConsumeStream router bindings sid1 pid ip1 fp1 ft1 fc1 n1).2 =
        .ok c i po ∧
      (ndiBridgeConsumeStream router
          (ndiBridgeConsumeStream router bindings sid1 pid ip1 fp1 ft1 fc1 n1).1
          sid2 pid ip2 fp2 ft2 fc2 n2).2 =
        .ok c i po := by
  obtain ⟨p, hp⟩ := Option.isSome_iff_exists.1 h
  cases hb : bindings.get? pid with
  | some b =>
      exact ⟨b.consumerId, b.ip, b.port, by simp [ndiBridgeConsumeStream, hp, hb]⟩
  | none =>
      refine ⟨fc1, ip1, fp1, ?_, ?_⟩
      · simp [ndiBridgeConsumeStream, hp, hb]
      · have hset :
            (ndiBridgeConsumeStream router bindings sid1 pid ip1 fp1 ft1 fc1 n1).1 =
              bindings.set pid
                { transportId := ft1, ip := ip1, port := fp1, rtcpPort := none,
                  consumerId := fc1, streamId := sid1, createdAt := n1 } := by
          simp [ndiBridgeConsumeStream, hp, hb]
        rw [hset]
        simp [ndiBridgeConsumeStream, hp, JsMap.get?_set_self]

/-- Witness for C2: two consume requests for the live producer p0. -/
theorem claim_C2_witness :
    ∃ (c i : String) (po : Nat),
      (ndiBridgeConsumeStream routerLive ⟨[]⟩ "stream-t1-5" "p0" "192.168.0.10"
          20000 "pt1" "c1" 50).2 = .ok c i po ∧
      (ndiBridgeConsumeStream routerLive
          (ndiBridgeConsumeStream routerLive ⟨[]⟩ "stream-t1-5" "p0" "192.168.0.10"
            20000 "pt1" "c1" 50).1
          "stream-t1-5" "p0" "10.0.0.9" 20002 "pt2" "c2" 60).2 = .ok c i po :=
  claim_C2 routerLive ⟨[]⟩ "stream-t1-5" "p0" "192.168.0.10" 20000 "pt1" "c1" 50
    "stream-t1-5" "10.0.0.9" 20002 "pt2" "c2" 60 (by decide)

/-- C6: a stop-stream request from the socket of a streaming device flips the
device to not streaming with a null stream id and broadcasts
device-streaming-changed(false), and changes nothing else: the router maps
are untouched, so the producer is not closed and get-active-streams still
returns the same streams, and no stream-ended event is emitted. -/
theorem claim_C6 (st : ServerState) (sid : String) (now : Nat) (d : DeviceInfo)
    (hfind : st.devices.values.find? (fun x => x.socketId == sid) = some d)
    (_hstreaming : d.isStreaming = true) :
    (handleStopStream st sid now).1.router = st.router ∧
    getActiveStreams (handleStopStream st sid now).1.router = getActiveStreams st.router ∧
    (handleStopStream st sid now).1.router.producers = st.router.producers ∧
    (handleStopStream st sid now).1.devices.get? d.deviceId =
      some { d with isStreaming := false, streamId := none, lastSeenAt := now } ∧
    (handleStopStream st sid now).2.1 = .ok ∧
    (handleStopStream st sid now).2.2 = [.deviceStreamingChanged d.deviceId false none] ∧
    (∀ s, Event.streamEnded s ∉ (handleStopStream st sid now).2.2) := by
  have h1 : stopStreamDevices st.devices sid now =
      (st.devices.set d.deviceId { d with isStreaming := false, streamId := none, lastSeenAt := now },
       .ok, [.deviceStreamingChanged d.deviceId false none]) := by
    simp [stopStreamDevices, hfind]
  refine ⟨rfl, rfl, rfl, ?_, ?_, ?_, ?_⟩
  · simp [handleStopStream, h1, JsMap.get?_set_self]
  · simp [handleStopStream, h1]
  · simp [handleStopStream, h1]
  · intro s hs
    simp [handleStopStream, h1] at hs

/-- Witness for C6: the streaming device cam1 issues stop-stream; the router
and its stream list survive unchanged. -/
theorem claim_C6_witness :
    (handleStopStream serverLive "s1" 200).1.router = serverLive.router ∧
    getActiveStreams (handleStopStream serverLive "s1" 200).1.router =
      getActiveStreams serverLive.router ∧
    (handleStopStream serverLive "s1" 200).1.router.producers = serverLive.router.producers ∧
    (handleStopStream serverLive "s1" 200).1.devices.get? "cam1" =
      some { camStreaming with isStreaming := false, streamId := none, lastSeenAt := 200 } ∧
    (handleStopStream serverLive "s1" 200).2.1 = .ok ∧
    (handleStopStream serverLive "s1" 200).2.2 =
      [.deviceStreamingChanged "cam1" false none] ∧
    (∀ s, Event.streamEnded s ∉ (handleStopStream serverLive "s1" 200).2.2) := by
  have h := claim_C6 serverLive "s1" 200 camStreaming (by decide) (by decide)
  simpa using h


/-- The in-place stream update of createProducer keeps the record identity
and the operator label: id, customName and clientId are unchanged, while
producerId and connectedAt are refreshed. -/
theorem updateExistingStream_fields (pid : String) (now : Nat) (rtp : RtpParameters)
    (s : StreamInfo) :
    (updateExistingStream pid now rtp s).id = s.id ∧
    (updateExistingStream pid now rtp s).customName = s.customName ∧
    (updateExistingStream pid now rtp s).clientId = s.clientId ∧
    (updateExistingStream pid now rtp s).producerId = pid ∧
    (updateExistingStream pid now rtp s).connectedAt = now := by
  unfold updateExistingStream
  cases s.stats <;> simp

/-- C3: a video produce call on a client transport that already has a stream
record does not create a second record: the map keeps its size, the record
found for that client keeps its id and its operator-assigned customName,
and its producerId and connection timestamp are refreshed to the new
producer. -/
theorem claim_C3 (st : RouterState) (tid : String) (t : Transport) (rtp : RtpParameters)
    (now : Nat) (pid : String) (s0 : StreamInfo)
    (ht : st.transports.get? tid = some t) (hk : t.kind = .webrtc)
    (hs : st.streamMetadata.values.find? (fun s => s.clientId == t.id) = some s0) :
    ∃ (st1 : RouterState) (p : Producer) (s1 : StreamInfo),
      createProducer st tid .video rtp now pid = .ok (st1, p) ∧
      st1.streamMetadata.entries.length = st.streamMetadata.entries.length ∧
      st1.streamMetadata.values.find? (fun s => s.clientId == t.id) = some s1 ∧
      s1.id = s0.id ∧
      s1.customName = s0.customName ∧
      s1.producerId = pid ∧
      s1.connectedAt = now := by
  obtain ⟨hid, hname, hcl, hpid, hconn⟩ := updateExistingStream_fields pid now rtp s0
  have hpred := List.find?_some hs
  have hpredUpd :
      (fun (s : StreamInfo) => s.clientId == t.id) (updateExistingStream pid now rtp s0) = true := by
    simp only [hcl]
    exact hpred
  refine ⟨{ st with
              producers := st.producers.set pid { id := pid, kind := .video, clientId := t.id },
              streamMetadata :=
                st.streamMetadata.updateFirstWhere (fun s => s.clientId == t.id)
                  (updateExistingStream pid now rtp) },
          { id := pid, kind := .video, clientId := t.id },
          updateExistingStream pid now rtp s0, ?_, ?_, ?_, hid, hname, hpid, hconn⟩
  · simp [createProducer, ht, hk, hs]
  · exact JsMap.length_updateFirstList _ _ _
  · exact JsMap.find?_values_updateFirst st.streamMetadata _ _ s0 hs hpredUpd

/-- Witness for C3: a second video producer p2 arrives on transport t1 whose
stream was renamed CAM-LEFT by an operator; the record keeps its id and
name and adopts p2. -/
theorem claim_C3_witness :
    ∃ (st1 : RouterState) (p : Producer) (s1 : StreamInfo),
      createProducer routerT1S1 "t1" .video { encodings := [] } 300 "p2" = .ok (st1, p) ∧
      st1.streamMetadata.entries.length = routerT1S1.streamMetadata.entries.length ∧
      st1.streamMetadata.values.find? (fun s => s.clientId == transportT1.id) = some s1 ∧
      s1.id = streamS1.id ∧
      s1.customName = streamS1.customName ∧
      s1.producerId = "p2" ∧
      s1.connectedAt = 300 :=
  claim_C3 routerT1S1 "t1" transportT1 { encodings := [] } 300 "p2" streamS1
    (by decide) (by decide) (by decide)

/-- C1 fails on the code: createProducer sets the producer appData.clientId
to the id of the owning transport (the source comment says: use transport
ID as stable client identifier), not to a registered deviceId, so a live
video producer can exist while no device in the registry carries that id.
Here the registry holds the registered device cam1 and a video producer is
created on transport t1; no device with deviceId t1 exists. -/
theorem claim_C1_cex :
    createProducer routerT1 "t1" .video { encodings := [] } 99 "p1" =
      .ok (routerAfterP1, producerP1) ∧
    producerP1.kind = .video ∧
    ¬ producerDeviceInvariant routerAfterP1 camRegistry := by
  refine ⟨by rfl, rfl, by decide⟩

/-- C1 amended: for every producer successfully created by createProducer,
its appData.clientId equals the id of the transport on which it was
produced (which need not match any registered deviceId). -/
theorem claim_C1_amended (st : RouterState) (tid : String) (t : Transport)
    (kind : MediaKind) (rtp : RtpParameters) (now : Nat) (pid : String)
    (ht : st.transports.get? tid = some t) (hk : t.kind = .webrtc) :
    ∃ st1 : RouterState,
      createProducer st tid kind rtp now pid =
        .ok (st1, { id := pid, kind := kind, clientId := t.id }) ∧
      st1.producers.get? pid = some { id := pid, kind := kind, clientId := t.id } := by
  cases kind with
  | audio =>
      exact ⟨{ st with producers := st.producers.set pid { id := pid, kind := .audio, clientId := t.id } },
        by simp [createProducer, ht, hk],
        JsMap.get?_set_self st.producers pid _⟩
  | video =>
      cases hf : st.streamMetadata.values.find? (fun s => s.clientId == t.id) with
      | some s0 =>
          exact ⟨{ st with
                    producers := st.producers.set pid { id := pid, kind := .video, clientId := t.id },
                    streamMetadata :=
                      st.streamMetadata.updateFirstWhere (fun s => s.clientId == t.id)
                        (updateExistingStream pid now rtp) },
            by simp [createProducer, ht, hk, hf],
            JsMap.get?_set_self st.producers pid _⟩
      | none =>
          refine ⟨{ st with
                    producers := st.producers.set pid { id := pid, kind := .video, clientId := t.id },
                    streamMetadata :=
                      st.streamMetadata.set ("stream-" ++ t.id ++ "-" ++ toString now)
                        (let base : StreamInfo :=
                          { id := "stream-" ++ t.id ++ "-" ++ toString now, producerId := pid,
                            clientId := t.id,
                            deviceName := "Device " ++ sliceLast4 t.id,
                            resolution := { width := 1280, height := 720 },
                            bitrate := 1000000, connectedAt := now, customName := none,
                            stats := some freshStats }
                         let rb := applyFirstEncoding rtp base.resolution base.bitrate
                         { base with resolution := rb.1, bitrate := rb.2 }) },
            by simp [createProducer, ht, hk, hf],
            JsMap.get?_set_self st.producers pid _⟩

/-- Witness for the amended C1: producing on t1 yields a producer whose
clientId is t1 itself. -/
theorem claim_C1_amended_witness :
    ∃ st1 : RouterState,
      createProducer routerT1 "t1" .video { encodings := [] } 99 "p1" =
        .ok (st1, { id := "p1", kind := .video, clientId := "t1" }) ∧
      st1.producers.get? "p1" = some { id := "p1", kind := .video, clientId := "t1" } := by
  have h := claim_C1_amended routerT1 "t1" transportT1 .video { encodings := [] } 99 "p1"
    (by decide) (by decide)
  simpa using h


/-- C4 as stated fails on the code: a first encoding that declares
maxBitrate 0 is falsy in JS, so the source keeps the 1000000 default
instead of adopting the declared value. -/
theorem claim_C4_cex : ¬ claimC4BitrateAsStated := by
  intro h
  have h2 := h routerT1 "t1" transportT1 rtpZeroMaxBitrate 99 "p1" routerAfterP1 producerP1
    { scaleResolutionDownBy := none, maxBitrate := some 0 } [] 0 streamT1at99
    (by decide) (by decide) (by rfl) (by decide) (by decide) (by decide)
  exact absurd h2 (by decide)

/-- C4 amended: the first video producer on a client transport synthesizes a
stream record with id stream-<transportId>-<epochMs>, default resolution
1280 by 720 at 30 fps with bitrate 1000000; a declared nonzero
scaleResolutionDownBy factor sc records width floor(1280/sc) and height
floor(720/sc); a declared nonzero maxBitrate is adopted (a declared zero is
falsy in JS and is ignored, keeping the defaults). -/
theorem claim_C4_amended (st : RouterState) (tid : String) (t : Transport)
    (rtp : RtpParameters) (now : Nat) (pid : String)
    (ht : st.transports.get? tid = some t) (hk : t.kind = .webrtc)
    (hs : st.streamMetadata.values.find? (fun s => s.clientId == t.id) = none) :
    ∃ (st1 : RouterState) (p : Producer) (info : StreamInfo),
      createProducer st tid .video rtp now pid = .ok (st1, p) ∧
      st1.streamMetadata.get? ("stream-" ++ t.id ++ "-" ++ toString now) = some info ∧
      info.id = "stream-" ++ t.id ++ "-" ++ toString now ∧
      info.producerId = pid ∧
      info.clientId = t.id ∧
      info.stats = some freshStats ∧
      freshStats.frameRate = 30 ∧
      (rtp.encodings = [] → info.resolution = { width := 1280, height := 720 } ∧
        info.bitrate = 1000000) ∧
      (∀ e es, rtp.encodings = e :: es →
        (e.scaleResolutionDownBy = none → info.resolution = { width := 1280, height := 720 }) ∧
        (∀ sc : ℚ, e.scaleResolutionDownBy = some sc → sc ≠ 0 →
          info.resolution =
            { width := jsMathFloor (1280 / sc), height := jsMathFloor (720 / sc) }) ∧
        (e.maxBitrate = none → info.bitrate = 1000000) ∧
        (∀ mb : Int, e.maxBitrate = some mb → mb ≠ 0 → info.bitrate = mb)) := by
  refine ⟨{ st with
              producers := st.producers.set pid { id := pid, kind := .video, clientId := t.id },
              streamMetadata :=
                st.streamMetadata.set ("stream-" ++ t.id ++ "-" ++ toString now)
                  { id := "stream-" ++ t.id ++ "-" ++ toString now, producerId := pid,
                    clientId := t.id,
                    deviceName := "Device " ++ sliceLast4 t.id,
                    resolution := (applyFirstEncoding rtp { width := 1280, height := 720 } 1000000).1,
                    bitrate := (applyFirstEncoding rtp { width := 1280, height := 720 } 1000000).2,
                    connectedAt := now, customName := none,
                    stats := some freshStats } },
          { id := pid, kind := .video, clientId := t.id },
          { id := "stream-" ++ t.id ++ "-" ++ toString now, producerId := pid,
            clientId := t.id,
            deviceName := "Device " ++ sliceLast4 t.id,
            resolution := (applyFirstEncoding rtp { width := 1280, height := 720 } 1000000).1,
            bitrate := (applyFirstEncoding rtp { width := 1280, height := 720 } 1000000).2,
            connectedAt := now, customName := none,
            stats := some freshStats },
          ?_, ?_, rfl, rfl, rfl, rfl, rfl, ?_, ?_⟩
  · simp [createProducer, ht, hk, hs]
  · exact JsMap.get?_set_self st.streamMetadata _ _
  · intro hnil
    simp [applyFirstEncoding, hnil]
  · intro e es hcons
    refine ⟨?_, ?_, ?_, ?_⟩
    · intro hscale
      simp [applyFirstEncoding, hcons, hscale]
    · intro sc hscale hne
      simp [applyFirstEncoding, hcons, hscale, hne]
    · intro hmb
      simp [applyFirstEncoding, hcons, hmb]
    · intro mb hmb hne
      simp [applyFirstEncoding, hcons, hmb, hne]

/-- Witness for the amended C4: a first producer declaring
scaleResolutionDownBy 2 and maxBitrate 600000 records 640 by 360 at that
bitrate. -/
theorem claim_C4_amended_witness :
    ∃ (st1 : RouterState) (p : Producer) (info : StreamInfo),
      createProducer routerT1 "t1" .video
          { encodings := [{ scaleResolutionDownBy := some 2, maxBitrate := some 600000 }] }
          99 "p1" = .ok (st1, p) ∧
      st1.streamMetadata.get? "stream-t1-99" = some info ∧
      info.resolution = { width := jsMathFloor (1280 / 2), height := jsMathFloor (720 / 2) } ∧
      info.bitrate = 600000 := by
  obtain ⟨st1, p, info, hok, hget, hid, hpid, hcl, hst, hfr, hnil, hcons⟩ :=
    claim_C4_amended routerT1 "t1" transportT1
      { encodings := [{ scaleResolutionDownBy := some 2, maxBitrate := some 600000 }] }
      99 "p1" (by decide) (by decide) (by decide)
  obtain ⟨hs1, hs2, hb1, hb2⟩ := hcons { scaleResolutionDownBy := some 2, maxBitrate := some 600000 } [] rfl
  exact ⟨st1, p, info, hok, hget,
    hs2 2 rfl (by norm_num), hb2 600000 rfl (by norm_num)⟩

/-- C9: disconnectStream on an existing stream closes and removes the
producer and deletes the stream record, but the WebRTC transport survives:
the lookup compares each transport appData.clientId (a client-<epochMs>
string from createWebRtcTransport, or a registered deviceId) against the
stream clientId, which is the id of the transport itself, so under the
hypothesis that no transport carries the stream clientId in its appData no
transport is found, closed or deleted. -/
theorem claim_C9 (st : RouterState) (streamId : String) (s : StreamInfo)
    (hs : st.streamMetadata.get? streamId = some s)
    (hp : (st.producers.get? s.producerId).isSome)
    (hnone : ∀ t ∈ st.transports.values, (t.clientId == s.clientId) = false) :
    (disconnectStream st streamId).ok = true ∧
    (disconnectStream st streamId).state.streamMetadata.get? streamId = none ∧
    (disconnectStream st streamId).state.producers.get? s.producerId = none ∧
    (disconnectStream st streamId).closedProducers = [s.producerId] ∧
    (disconnectStream st streamId).state.transports = st.transports ∧
    (disconnectStream st streamId).closedTransports = [] ∧
    (∀ (st2 : RouterState) (now : Nat) (tid : String),
      (createWebRtcTransport st2 now tid).2.clientId = "client-" ++ toString now) := by
  obtain ⟨p, hpp⟩ := Option.isSome_iff_exists.1 hp
  have hfindT : st.transports.values.find? (fun t => t.clientId == s.clientId) = none := by
    rw [List.find?_eq_none]
    intro t htmem
    simpa using hnone t htmem
  refine ⟨?_, ?_, ?_, ?_, ?_, ?_, ?_⟩
  · simp [disconnectStream, hs, hpp, hfindT]
  · simp [disconnectStream, hs, hpp, hfindT, JsMap.get?_delete_self]
  · simp [disconnectStream, hs, hpp, hfindT, JsMap.get?_delete_self]
  · simp [disconnectStream, hs, hpp, hfindT]
  · simp [disconnectStream, hs, hpp, hfindT]
  · simp [disconnectStream, hs, hpp, hfindT]
  · intro st2 now tid
    simp [createWebRtcTransport]

/-- Witness for C9: disconnecting stream-t1-5 removes the stream and
producer p0 while transport t1 (appData.clientId client-42) survives. -/
theorem claim_C9_witness :
    (disconnectStream routerLive "stream-t1-5").ok = true ∧
    (disconnectStream routerLive "stream-t1-5").state.streamMetadata.get? "stream-t1-5" = none ∧
    (disconnectStream routerLive "stream-t1-5").state.producers.get? "p0" = none ∧
    (disconnectStream routerLive "stream-t1-5").closedProducers = ["p0"] ∧
    (disconnectStream routerLive "stream-t1-5").state.transports = routerLive.transports ∧
    (disconnectStream routerLive "stream-t1-5").closedTransports = [] := by
  have h := claim_C9 routerLive "stream-t1-5" streamS1 (by decide) (by decide) (by decide)
  exact ⟨h.1, h.2.1, h.2.2.1, h.2.2.2.1, h.2.2.2.2.1, h.2.2.2.2.2.1⟩

/-- The stream map left by handleProducerClosed: the record found for the
producer id is deleted and nothing else changes in that map. -/
theorem handleProducerClosed_streamMetadata (st : RouterState) (pid : String) :
    (handleProducerClosed st pid).streamMetadata =
      match st.streamMetadata.values.find? (fun s => s.producerId == pid) with
      | none => st.streamMetadata
      | some stream => st.streamMetadata.delete stream.id := by
  unfold handleProducerClosed
  cases hf : st.streamMetadata.values.find? (fun s => s.producerId == pid) with
  | none => rfl
  | some stream =>
      cases hft : ({ st with
          streamMetadata := st.streamMetadata.delete stream.id
          producers := st.producers.delete pid } : RouterState).transports.values.find?
            (fun t => t.clientId == stream.clientId) with
      | none => simp [hft]
      | some t => simp [hft]

/-- handleProducerClosed is the identity when no stream record carries the
producer id. -/
theorem handleProducerClosed_of_find_none (st : RouterState) (pid : String)
    (h : st.streamMetadata.values.find? (fun s => s.producerId == pid) = none) :
    handleProducerClosed st pid = st := by
  simp [handleProducerClosed, h]

/-- C10: when no stream record carries the given producer id (in particular
for every audio producer, whose produce call never creates a record),
handleProducerClosed leaves all four router maps unchanged; and under the
reachable-state invariants that stream records are keyed by their id and
at most one record carries any producer id, a second call for an
already-handled producer is a no-op, so repeating the call equals calling
it once. -/
theorem claim_C10 (st : RouterState) (pid : String) :
    (st.streamMetadata.values.find? (fun s => s.producerId == pid) = none →
      handleProducerClosed st pid = st) ∧
    ((∀ e ∈ st.streamMetadata.entries, e.2.id = e.1) →
     (∀ e ∈ st.streamMetadata.entries, ∀ e2 ∈ st.streamMetadata.entries,
        (e.2.producerId == pid) = true → (e2.2.producerId == pid) = true → e = e2) →
      handleProducerClosed (handleProducerClosed st pid) pid = handleProducerClosed st pid) := by
  constructor
  · intro hnone
    exact handleProducerClosed_of_find_none st pid hnone
  · intro hwk hU
    cases hf : st.streamMetadata.values.find? (fun s => s.producerId == pid) with
    | none =>
        have h1 : handleProducerClosed st pid = st :=
          handleProducerClosed_of_find_none st pid hf
        rw [h1, h1]
    | some s =>
        have hpredS := List.find?_some hf
        have hmem : s ∈ st.streamMetadata.values := List.mem_of_find?_eq_some hf
        obtain ⟨es, hes, hesv⟩ := List.mem_map.1 hmem
        have heskey : es.1 = s.id := by rw [← (hwk es hes), hesv]
        have hnone2 :
            (handleProducerClosed st pid).streamMetadata.values.find?
              (fun x => x.producerId == pid) = none := by
          rw [handleProducerClosed_streamMetadata st pid, hf]
          rw [List.find?_eq_none]
          intro v hv hpred
          simp only [JsMap.values, JsMap.delete, List.mem_map] at hv
          obtain ⟨e, he, hev⟩ := hv
          have hefilter := List.of_mem_filter he
          have hemem := List.mem_of_mem_filter he
          have heq : e = es := by
            apply hU e hemem es hes
            · rw [hev]; exact hpred
            · rw [hesv]; exact hpredS
          rw [heq, heskey] at hefilter
          simp at hefilter
        exact handleProducerClosed_of_find_none _ _ hnone2

/-- Witness for C10: closing the audio producer pa (no stream record) leaves
the router untouched, and a repeated call equals a single call. -/
theorem claim_C10_witness :
    handleProducerClosed routerAudio "pa" = routerAudio ∧
    handleProducerClosed (handleProducerClosed routerAudio "pa") "pa" =
      handleProducerClosed routerAudio "pa" :=
  ⟨(claim_C10 routerAudio "pa").1 (by decide),
   (claim_C10 routerAudio "pa").2 (by decide) (by decide)⟩


/-! ## Step shape lemmas for the registry trace semantics -/

/-- A register-device with an empty (falsy) id is a registry no-op. -/
theorem register_step_empty (ds : JsMap DeviceInfo) (name : Option String)
    (sid : String) (now : Nat) :
    step ds (.register "" name sid now) = (ds, []) := by
  simp [step, registerDevice, jsTruthyStr]

/-- A successful register-device rebuilds the entry of its device with the
timer cleared and the new socket bound. -/
theorem register_step_shape (ds : JsMap DeviceInfo) (did : String) (name : Option String)
    (sid2 : String) (t1 : Nat) (hne : did ≠ "") :
    ∃ info : DeviceInfo,
      step ds (.register did name sid2 t1) =
        (ds.set did info, [.deviceConnected did info.deviceName]) ∧
      info.removalTimer = none ∧ info.socketId = sid2 ∧ info.deviceId = did := by
  refine ⟨{ deviceId := did, socketId := sid2,
            deviceName :=
              match jsTruthyStr name with
              | some n => some n
              | none => (ds.get? did).bind (fun e => e.deviceName),
            isConnected := true,
            isStreaming :=
              match ds.get? did with
              | some e => e.isStreaming
              | none => false,
            streamId :=
              match ds.get? did with
              | some e => jsTruthyStr e.streamId
              | none => none,
            lastSeenAt := t1, removalTimer := none }, ?_, rfl, rfl, rfl⟩
  simp [step, registerDevice, jsTruthyStr, hne]

/-- A disconnect whose socket matches no device is a registry no-op. -/
theorem disconnect_step_nofind (ds : JsMap DeviceInfo) (sid : String) (t : Nat)
    (h : ds.values.find? (fun x => x.socketId == sid) = none) :
    step ds (.disconnect sid t) = (ds, []) := by
  simp [step, socketDisconnect, h]

/-- A disconnect marks the found device disconnected and arms its removal
timer 30000 ms out. -/
theorem disconnect_step_shape (ds : JsMap DeviceInfo) (sid : String) (t0 : Nat)
    (d : DeviceInfo)
    (hfind : ds.values.find? (fun x => x.socketId == sid) = some d) :
    step ds (.disconnect sid t0) =
      (ds.set d.deviceId
        { d with isConnected := false, lastSeenAt := t0,
                 removalTimer := some (t0 + 30000) },
       [.deviceDisconnected d.deviceId]) := by
  simp [step, socketDisconnect, hfind]

/-- A timer expiry for an unknown device is a no-op. -/
theorem fire_step_nodevice (ds : JsMap DeviceInfo) (did : String) (t : Nat)
    (h : ds.get? did = none) :
    step ds (.fire did t) = (ds, []) := by
  simp [step, fireRemoval, h]

/-- A timer expiry that does not match the armed timer (cancelled or
re-armed) is a no-op. -/
theorem fire_step_wrongtime (ds : JsMap DeviceInfo) (did : String) (t : Nat)
    (d : DeviceInfo) (hget : ds.get? did = some d)
    (h : ¬ d.removalTimer = some t) :
    step ds (.fire did t) = (ds, []) := by
  simp [step, fireRemoval, hget, h]

/-- A matching timer expiry of a device that is connected or streaming again
removes nothing and consumes the timer. -/
theorem fire_step_alive (ds : JsMap DeviceInfo) (did : String) (t : Nat)
    (d : DeviceInfo) (hget : ds.get? did = some d)
    (htm : d.removalTimer = some t)
    (h : ¬ (d.isConnected = false ∧ d.isStreaming = false)) :
    step ds (.fire did t) = (ds.set did { d with removalTimer := none }, []) := by
  simp [step, fireRemoval, hget, htm, h]

/-- A matching timer expiry of a still-disconnected, non-streaming device
deletes it and broadcasts device-removed. -/
theorem fire_step_removes (ds : JsMap DeviceInfo) (did : String) (t : Nat)
    (d : DeviceInfo) (hget : ds.get? did = some d)
    (htm : d.removalTimer = some t)
    (hc : d.isConnected = false) (hs : d.isStreaming = false) :
    step ds (.fire did t) = (ds.delete did, [.deviceRemoved did]) := by
  simp [step, fireRemoval, hget, htm, hc, hs]

/-- WellKeyed is preserved by set when the new record is keyed by its own
deviceId. -/
theorem wellKeyed_set (ds : JsMap DeviceInfo) (k : String) (v : DeviceInfo)
    (hw : WellKeyed ds) (hv : v.deviceId = k) : WellKeyed (ds.set k v) := by
  constructor
  · intro e he
    rcases JsMap.mem_setList k v e ds.entries he with h1 | h2
    · rw [h1]; exact hv
    · exact hw.1 e h2
  · exact JsMap.keys_nodup_set ds k v hw.2

/-- WellKeyed is preserved by delete. -/
theorem wellKeyed_delete (ds : JsMap DeviceInfo) (k : String)
    (hw : WellKeyed ds) : WellKeyed (ds.delete k) :=
  ⟨fun e he => hw.1 e (JsMap.mem_entries_delete ds k e he),
   JsMap.keys_nodup_delete ds k hw.2⟩

/-- In a WellKeyed registry the record found under a key carries that key as
its deviceId. -/
theorem deviceId_of_get? (ds : JsMap DeviceInfo) (k : String) (d : DeviceInfo)
    (hw : WellKeyed ds) (hget : ds.get? k = some d) : d.deviceId = k :=
  hw.1 (k, d) (JsMap.mem_of_get? ds k d hget)

/-- In a WellKeyed registry, a disconnect of a foreign socket never lands on
the entry of the watched device. -/
theorem find_socket_ne (ds : JsMap DeviceInfo) (did sid s2 : String) (d f : DeviceInfo)
    (hw : WellKeyed ds) (hget : ds.get? did = some d) (hsock : d.socketId = sid)
    (hfind : ds.values.find? (fun x => x.socketId == s2) = some f) (hne : s2 ≠ sid) :
    f.deviceId ≠ did := by
  intro hfd
  obtain ⟨ef, hef, hefv⟩ := List.mem_map.1 (List.mem_of_find?_eq_some hfind)
  have hkey : ef.1 = did := by
    have h1 := hw.1 ef hef
    rw [hefv] at h1
    rw [← h1, hfd]
  have hef2 : (did, f) ∈ ds.entries := by
    have : ef = (did, f) := by
      cases ef
      simp only at hefv hkey
      rw [hefv, hkey]
    rwa [this] at hef
  have hgf : ds.get? did = some f := JsMap.get?_of_mem_nodup ds did f hw.2 hef2
  have hfd2 : f = d := by
    rw [hget] at hgf
    exact (Option.some_injective _ hgf.symm)
  have hfp := List.find?_some hfind
  rw [hfd2, hsock] at hfp
  simp at hfp
  exact hne hfp.symm

/-- One avoided action leaves the watched entry untouched, preserves
WellKeyed, and broadcasts no device-removed for the watched device. -/
theorem step_preserves (a : Action) (ds : JsMap DeviceInfo) (did sid : String)
    (d : DeviceInfo) (hw : WellKeyed ds) (hget : ds.get? did = some d)
    (hsock : d.socketId = sid) (hav : a.avoids did sid) :
    (step ds a).1.get? did = some d ∧ WellKeyed (step ds a).1 ∧
    Event.deviceRemoved did ∉ (step ds a).2 := by
  cases a with
  | register d2 name sid2 now2 =>
      have hne : d2 ≠ did := hav
      by_cases hemp : d2 = ""
      · rw [hemp, register_step_empty ds name sid2 now2]
        exact ⟨hget, hw, by simp⟩
      · obtain ⟨info, hstep, hrt, hsk, hdid2⟩ :=
          register_step_shape ds d2 name sid2 now2 hemp
        rw [hstep]
        refine ⟨?_, wellKeyed_set ds d2 info hw hdid2, by simp⟩
        rw [JsMap.get?_set_ne ds d2 did info (fun h => hne h.symm)]
        exact hget
  | disconnect s2 t2 =>
      have hnes : s2 ≠ sid := hav
      cases hfd : ds.values.find? (fun x => x.socketId == s2) with
      | none =>
          rw [disconnect_step_nofind ds s2 t2 hfd]
          exact ⟨hget, hw, by simp⟩
      | some f =>
          have hfne : f.deviceId ≠ did :=
            find_socket_ne ds did sid s2 d f hw hget hsock hfd hnes
          rw [disconnect_step_shape ds s2 t2 f hfd]
          refine ⟨?_, wellKeyed_set ds f.deviceId _ hw rfl, by simp⟩
          rw [JsMap.get?_set_ne ds f.deviceId did _ (fun h => hfne h.symm)]
          exact hget
  | fire d2 t =>
      have hne : d2 ≠ did := hav
      cases hg : ds.get? d2 with
      | none =>
          rw [fire_step_nodevice ds d2 t hg]
          exact ⟨hget, hw, by simp⟩
      | some dv =>
          have hdv : dv.deviceId = d2 := deviceId_of_get? ds d2 dv hw hg
          by_cases htm : dv.removalTimer = some t
          · by_cases hcond : dv.isConnected = false ∧ dv.isStreaming = false
            · rw [fire_step_removes ds d2 t dv hg htm hcond.1 hcond.2]
              refine ⟨?_, wellKeyed_delete ds d2 hw, ?_⟩
              · rw [JsMap.get?_delete_ne ds d2 did (fun h => hne h.symm)]
                exact hget
              · simp [hne.symm]
            · rw [fire_step_alive ds d2 t dv hg htm hcond]
              refine ⟨?_, wellKeyed_set ds d2 _ hw hdv, by simp⟩
              rw [JsMap.get?_set_ne ds d2 did _ (fun h => hne h.symm)]
              exact hget
          · rw [fire_step_wrongtime ds d2 t dv hg htm]
            exact ⟨hget, hw, by simp⟩

/-- A run of avoided actions leaves the watched entry untouched, preserves
WellKeyed, and broadcasts no device-removed for the watched device. -/
theorem run_preserves (did sid : String) (d : DeviceInfo) :
    ∀ (acts : List Action) (ds : JsMap DeviceInfo),
      WellKeyed ds → ds.get? did = some d → d.socketId = sid →
      (∀ a ∈ acts, a.avoids did sid) →
      (run ds acts).1.get? did = some d ∧ WellKeyed (run ds acts).1 ∧
      Event.deviceRemoved did ∉ (run ds acts).2 := by
  intro acts
  induction acts with
  | nil =>
      intro ds hw hget hsock _
      exact ⟨hget, hw, by simp [run]⟩
  | cons a rest ih =>
      intro ds hw hget hsock hav
      obtain ⟨h1, h2, h3⟩ := step_preserves a ds did sid d hw hget hsock (hav a (by simp))
      obtain ⟨h4, h5, h6⟩ := ih (step ds a).1 h2 h1 hsock (fun x hx => hav x (by simp [hx]))
      refine ⟨h4, h5, ?_⟩
      intro hmem
      simp only [run, List.mem_append] at hmem
      rcases hmem with hmem | hmem
      · exact h3 hmem
      · exact h6 hmem

/-- run distributes over trace concatenation. -/
theorem run_append (l1 l2 : List Action) :
    ∀ ds : JsMap DeviceInfo,
      run ds (l1 ++ l2) =
        ((run (run ds l1).1 l2).1, (run ds l1).2 ++ (run (run ds l1).1 l2).2) := by
  induction l1 with
  | nil => intro ds; simp [run]
  | cons a rest ih =>
      intro ds
      simp only [List.cons_append, run]
      rw [show rest.append l2 = rest ++ l2 from rfl, ih (step ds a).1]
      simp [List.append_assoc]


/-- Unfolding of run on a cons trace. -/
theorem run_cons (ds : JsMap DeviceInfo) (a : Action) (l : List Action) :
    run ds (a :: l) =
      ((run (step ds a).1 l).1, (step ds a).2 ++ (run (step ds a).1 l).2) := rfl

/-- Unfolding of run on the empty trace. -/
theorem run_nil (ds : JsMap DeviceInfo) : run ds [] = (ds, []) := rfl

/-- C5: a device that disconnects and then stays unregistered, disconnected
and non-streaming through the whole 30-second grace window is deleted at
expiry with device-removed broadcast exactly once; and if a register-device
for that id arrives inside the window, the timer is cancelled, the expiry
is a no-op, the device survives, and no device-removed is ever broadcast. -/
theorem claim_C5 :
    (∀ (ds : JsMap DeviceInfo) (d : DeviceInfo) (did sid : String) (t0 : Nat)
       (acts : List Action),
      WellKeyed ds →
      ds.get? did = some d →
      ds.values.find? (fun x => x.socketId == sid) = some d →
      d.isStreaming = false →
      (∀ a ∈ acts, a.avoids did sid) →
      (run ds (Action.disconnect sid t0 ::
          (acts ++ [Action.fire did (t0 + 30000)]))).1.get? did = none ∧
      (run ds (Action.disconnect sid t0 ::
          (acts ++ [Action.fire did (t0 + 30000)]))).2.count
        (Event.deviceRemoved did) = 1) ∧
    (∀ (ds : JsMap DeviceInfo) (d : DeviceInfo) (did sid : String) (t0 : Nat)
       (acts1 : List Action) (name : Option String) (sid2 : String) (t1 : Nat)
       (acts2 : List Action),
      WellKeyed ds →
      ds.get? did = some d →
      ds.values.find? (fun x => x.socketId == sid) = some d →
      did ≠ "" →
      (∀ a ∈ acts1, a.avoids did sid) →
      (∀ a ∈ acts2, a.avoids did sid2) →
      ((run ds (Action.disconnect sid t0 ::
          (acts1 ++ Action.register did name sid2 t1 ::
            (acts2 ++ [Action.fire did (t0 + 30000)])))).1.get? did).isSome ∧
      (run ds (Action.disconnect sid t0 ::
          (acts1 ++ Action.register did name sid2 t1 ::
            (acts2 ++ [Action.fire did (t0 + 30000)])))).2.count
        (Event.deviceRemoved did) = 0) := by
  constructor
  · intro ds d did sid t0 acts hw hget hfind hstream hav
    have hsock : d.socketId = sid := by
      have h := List.find?_some hfind
      simpa using h
    have hdid : d.deviceId = did := deviceId_of_get? ds did d hw hget
    rw [← hdid] at hget ⊢
    rw [← hdid] at hav
    set d1 : DeviceInfo :=
      { d with isConnected := false, lastSeenAt := t0,
               removalTimer := some (t0 + 30000) } with hd1
    have hstep1 : step ds (.disconnect sid t0) =
        (ds.set d.deviceId d1, [.deviceDisconnected d.deviceId]) :=
      disconnect_step_shape ds sid t0 d hfind
    have hds1get : (ds.set d.deviceId d1).get? d.deviceId = some d1 :=
      JsMap.get?_set_self ds d.deviceId d1
    have hds1wk : WellKeyed (ds.set d.deviceId d1) :=
      wellKeyed_set ds d.deviceId d1 hw rfl
    obtain ⟨h4, h5, h6⟩ :=
      run_preserves d.deviceId sid d1 acts (ds.set d.deviceId d1) hds1wk hds1get hsock hav
    have hfire : step (run (ds.set d.deviceId d1) acts).1 (.fire d.deviceId (t0 + 30000)) =
        ((run (ds.set d.deviceId d1) acts).1.delete d.deviceId,
         [.deviceRemoved d.deviceId]) :=
      fire_step_removes _ d.deviceId (t0 + 30000) d1 h4 rfl rfl hstream
    have h6count :
        (run (ds.set d.deviceId d1) acts).2.count (Event.deviceRemoved d.deviceId) = 0 :=
      List.count_eq_zero.2 h6
    constructor
    · simp only [run_cons, run_nil, hstep1, run_append, hfire]
      exact JsMap.get?_delete_self _ d.deviceId
    · simp only [run_cons, run_nil, hstep1, run_append, hfire]
      simp [List.count_append, List.count_cons, h6count]
  · intro ds d did sid t0 acts1 name sid2 t1 acts2 hw hget hfind hne hav1 hav2
    have hsock : d.socketId = sid := by
      have h := List.find?_some hfind
      simpa using h
    have hdid : d.deviceId = did := deviceId_of_get? ds did d hw hget
    rw [← hdid] at hget hne ⊢
    rw [← hdid] at hav1 hav2
    set d1 : DeviceInfo :=
      { d with isConnected := false, lastSeenAt := t0,
               removalTimer := some (t0 + 30000) } with hd1
    have hstep1 : step ds (.disconnect sid t0) =
        (ds.set d.deviceId d1, [.deviceDisconnected d.deviceId]) :=
      disconnect_step_shape ds sid t0 d hfind
    have hds1get : (ds.set d.deviceId d1).get? d.deviceId = some d1 :=
      JsMap.get?_set_self ds d.deviceId d1
    have hds1wk : WellKeyed (ds.set d.deviceId d1) :=
      wellKeyed_set ds d.deviceId d1 hw rfl
    obtain ⟨h4, h5, h6⟩ :=
      run_preserves d.deviceId sid d1 acts1 (ds.set d.deviceId d1) hds1wk hds1get hsock hav1
    obtain ⟨info, hstepR, hrtR, hskR, hdidR⟩ :=
      register_step_shape (run (ds.set d.deviceId d1) acts1).1 d.deviceId name sid2 t1 hne
    have hRget :
        ((run (ds.set d.deviceId d1) acts1).1.set d.deviceId info).get? d.deviceId =
          some info :=
      JsMap.get?_set_self _ d.deviceId info
    have hRwk : WellKeyed ((run (ds.set d.deviceId d1) acts1).1.set d.deviceId info) :=
      wellKeyed_set _ d.deviceId info h5 hdidR
    obtain ⟨hB4, hB5, hB6⟩ :=
      run_preserves d.deviceId sid2 info acts2 _ hRwk hRget hskR hav2
    have hfire :
        step (run ((run (ds.set d.deviceId d1) acts1).1.set d.deviceId info) acts2).1
          (.fire d.deviceId (t0 + 30000)) =
        ((run ((run (ds.set d.deviceId d1) acts1).1.set d.deviceId info) acts2).1, []) :=
      fire_step_wrongtime _ d.deviceId (t0 + 30000) info hB4 (by rw [hrtR]; simp)
    have h6count :
        (run (ds.set d.deviceId d1) acts1).2.count (Event.deviceRemoved d.deviceId) = 0 :=
      List.count_eq_zero.2 h6
    have hB6count :
        (run ((run (ds.set d.deviceId d1) acts1).1.set d.deviceId info) acts2).2.count
          (Event.deviceRemoved d.deviceId) = 0 :=
      List.count_eq_zero.2 hB6
    constructor
    · simp only [run_cons, run_nil, hstep1, run_append, hstepR, hfire]
      rw [hB4]
      rfl
    · simp only [run_cons, run_nil, hstep1, run_append, hstepR, hfire]
      simp [List.count_append, List.count_cons, h6count, hB6count]

/-- Witness for C5: device cam1 disconnects at 100 and its timer fires at
30100; without re-registration it is removed exactly once, and with a
register-device at 5000 it survives with no device-removed broadcast. -/
theorem claim_C5_witness :
    ((run camRegistry [Action.disconnect "s1" 100, Action.fire "cam1" 30100]).1.get?
        "cam1" = none ∧
     (run camRegistry [Action.disconnect "s1" 100, Action.fire "cam1" 30100]).2.count
        (Event.deviceRemoved "cam1") = 1) ∧
    (((run camRegistry [Action.disconnect "s1" 100,
        Action.register "cam1" (some "Phone") "s2" 5000,
        Action.fire "cam1" 30100]).1.get? "cam1").isSome ∧
     (run camRegistry [Action.disconnect "s1" 100,
        Action.register "cam1" (some "Phone") "s2" 5000,
        Action.fire "cam1" 30100]).2.count (Event.deviceRemoved "cam1") = 0) := by
  constructor
  · have h := claim_C5.1 camRegistry camDevice "cam1" "s1" 100 []
      (by decide) (by decide) (by decide) (by decide) (by simp)
    simpa using h
  · have h := claim_C5.2 camRegistry camDevice "cam1" "s1" 100 [] (some "Phone") "s2" 5000 []
      (by decide) (by decide) (by decide) (by decide) (by simp) (by simp)
    simpa using h

end MCR
